import Mathlib

/-!
Verification of the dual-domain synchronization layer in
`src/common/XenomaiLock.cpp` (XenomaiMutex / XenomaiConditionVariable /
turn_into_cobalt_thread / try_or_retry).

The native Xenomai syscalls are modelled by environment oracles:
`funcRes n` is the integer returned by the n-th invocation of the wrapped
native operation `func()` inside one `try_or_retry` call, and
`schedRes recurred` is the integer returned by `__wrap_sched_setscheduler`
at recursion depth `recurred` inside one `turn_into_cobalt_thread` call.
Every function returns its C++ return value paired with the trace of
native-environment calls it performed, in order; `initialize_xenomai`
appears in the trace as an event of its own.
-/

/-- The errno value EPERM, the "wrong scheduling domain" error code. -/
def EPERM : Int := 1

/-- The errno value EBUSY, returned by pthread_mutex_trylock on a held mutex. -/
def EBUSY : Int := 16

/-- The native operations wrapped by `try_or_retry` in the source: one per
libcobalt `__wrap_*` lambda passed at the six call sites. -/
inductive NativeOp where
  | trylock
  | lock
  | unlock
  | condWait
  | condSignal
  | condBroadcast
  deriving DecidableEq

/-- Observable native-environment calls made by the code, with the result
the environment returned where there is one. -/
inductive Event where
  /-- An invocation of the wrapped native operation `func()` inside
  `try_or_retry`, tagged with which operation it is and its result. -/
  | call (op : NativeOp) (r : Int)
  /-- Entry into `turn_into_cobalt_thread` from `try_or_retry`. -/
  | promote
  /-- An invocation of `__wrap_sched_setscheduler` with its result. -/
  | schedSet (r : Int)
  /-- An invocation of `initialize_xenomai` (hence of `xenomai_init`). -/
  | initXenomai
  /-- An invocation of `__wrap_pthread_mutex_init` with its result. -/
  | mutexInit (r : Int)
  /-- An invocation of `__wrap_pthread_cond_init` with its result. -/
  | condInit (r : Int)
  /-- An invocation of `__wrap_pthread_mutex_destroy`. -/
  | mutexDestroy
  /-- An invocation of `__wrap_pthread_cond_destroy`. -/
  | condDestroy
  deriving DecidableEq

/-- Number of events in a trace satisfying a predicate. -/
def countEv (p : Event → Bool) (l : List Event) : Nat :=
  (l.filter p).length

/-- Recognizes an invocation of the wrapped operation (any of the six). -/
def Event.isCall : Event → Bool
  | .call _ _ => true
  | _ => false

/-- Recognizes an invocation of the wrapped operation `op`. -/
def Event.isCallOf (op : NativeOp) : Event → Bool
  | .call o _ => decide (o = op)
  | _ => false

/-- Recognizes an entry into the Domain Promoter. -/
def Event.isPromote : Event → Bool
  | .promote => true
  | _ => false

/-- Recognizes a `__wrap_sched_setscheduler` syscall. -/
def Event.isSchedSet : Event → Bool
  | .schedSet _ => true
  | _ => false

/-- Recognizes an invocation of `initialize_xenomai`. -/
def Event.isInitXenomai : Event → Bool
  | .initXenomai => true
  | _ => false

/-- Recognizes an event that touches a mutex's native handle
(`pthread_mutex_*` calls and the condition wait, which atomically releases
and reacquires the supplied mutex). -/
def Event.touchesMutex : Event → Bool
  | .call .trylock _ => true
  | .call .lock _ => true
  | .call .unlock _ => true
  | .call .condWait _ => true
  | .mutexInit _ => true
  | .mutexDestroy => true
  | _ => false

/-- Embeds `turn_into_cobalt_thread(bool recurred = false)`
(XenomaiLock.cpp lines 52-71).  The source reads the current mode and the
scheduling parameters, then calls `__wrap_sched_setscheduler`; the result
of that syscall at each recursion depth is supplied by the oracle
`schedRes`.  On a nonzero result it prints a warning, calls
`initialize_xenomai()`, and either recurses once (when `recurred` is
false) or returns -1. On a zero result it returns 0. -/
def turn_into_cobalt_thread (schedRes : Bool → Int) (recurred : Bool) :
    Int × List Event :=
  if schedRes recurred ≠ 0 then
    if recurred = false then
      let r := turn_into_cobalt_thread schedRes true
      (r.1, Event.schedSet (schedRes recurred) :: Event.initXenomai :: r.2)
    else
      (-1, [Event.schedSet (schedRes recurred), Event.initXenomai])
  else
    (0, [Event.schedSet (schedRes recurred)])
termination_by if recurred then 0 else 1
decreasing_by simp_all

/-- Embeds the template `try_or_retry(func, id, name, enabled)`
(XenomaiLock.cpp lines 100-118).  `op` records which native operation the
`func` lambda wraps; `funcRes n` is the environment's result for the n-th
invocation of `func()`.  When `enabled` is false the source executes
`return false;` from an `int`-returning function, which converts to the
int 0, with no native call.  Otherwise it calls `func()`; any result
other than EPERM is returned as-is; on EPERM it calls
`turn_into_cobalt_thread()`, returns EPERM if that fails, and otherwise
calls `func()` a second time and returns that result. -/
def try_or_retry (op : NativeOp) (funcRes : Nat → Int) (schedRes : Bool → Int)
    (enabled : Bool) : Int × List Event :=
  if !enabled then
    (0, [])
  else
    let ret := funcRes 0
    if ret ≠ EPERM then
      (ret, [Event.call op ret])
    else
      let p := turn_into_cobalt_thread schedRes false
      if p.1 ≠ 0 then
        (EPERM, Event.call op ret :: Event.promote :: p.2)
      else
        let ret2 := funcRes 1
        (ret2, Event.call op ret :: Event.promote :: p.2 ++ [Event.call op ret2])

/-- Embeds the constructor `XenomaiMutex::XenomaiMutex()`
(XenomaiLock.cpp lines 75-86).  `initRes n` is the result of the n-th
`__wrap_pthread_mutex_init` call.  The source checks the first init result
against EPERM only; on EPERM it calls `initialize_xenomai()` and retries,
returning early (leaving `enabled` false) when the retry fails.  Every
path that does not return early falls through to `enabled = true`.
Returns the final value of `enabled` paired with the trace. -/
def XenomaiMutex.construct (initRes : Nat → Int) : Bool × List Event :=
  let r1 := initRes 0
  if EPERM = r1 then
    let r2 := initRes 1
    if r2 ≠ 0 then
      (false, [Event.mutexInit r1, Event.initXenomai, Event.mutexInit r2])
    else
      (true, [Event.mutexInit r1, Event.initXenomai, Event.mutexInit r2])
  else
    (true, [Event.mutexInit r1])

/-- Embeds the destructor `XenomaiMutex::~XenomaiMutex()`
(XenomaiLock.cpp lines 88-92). -/
def XenomaiMutex.destroy (enabled : Bool) : List Event :=
  if enabled then [Event.mutexDestroy] else []

/-- Embeds `XenomaiMutex::try_lock` (XenomaiLock.cpp lines 121-126):
`return 0 == try_or_retry(...)` around `__wrap_pthread_mutex_trylock`.
The unused `recurred` parameter of the source method is omitted. -/
def XenomaiMutex.try_lock (funcRes : Nat → Int) (schedRes : Bool → Int)
    (enabled : Bool) : Bool × List Event :=
  let r := try_or_retry NativeOp.trylock funcRes schedRes enabled
  (decide ((0 : Int) = r.1), r.2)

/-- Embeds `XenomaiMutex::lock` (XenomaiLock.cpp lines 128-131): runs
`try_or_retry` around `__wrap_pthread_mutex_lock` and discards the result,
so only the trace remains. -/
def XenomaiMutex.lock (funcRes : Nat → Int) (schedRes : Bool → Int)
    (enabled : Bool) : List Event :=
  (try_or_retry NativeOp.lock funcRes schedRes enabled).2

/-- Embeds `XenomaiMutex::unlock` (XenomaiLock.cpp lines 133-136): runs
`try_or_retry` around `__wrap_pthread_mutex_unlock` and discards the
result. -/
def XenomaiMutex.unlock (funcRes : Nat → Int) (schedRes : Bool → Int)
    (enabled : Bool) : List Event :=
  (try_or_retry NativeOp.unlock funcRes schedRes enabled).2

/-- Embeds the constructor
`XenomaiConditionVariable::XenomaiConditionVariable()`
(XenomaiLock.cpp lines 138-152).  `initRes n` is the result of the n-th
`__wrap_pthread_cond_init` call.  On a nonzero first result the source
enters the outer block; on EPERM it calls `initialize_xenomai()` and
retries, and when the retry fails it prints and returns.  When the retry
succeeds, control falls out of the inner `if` but then still hits the
outer block's `return;`, so `enabled = true` is reached only when the
FIRST init returned 0. -/
def XenomaiConditionVariable.construct (initRes : Nat → Int) :
    Bool × List Event :=
  let r1 := initRes 0
  if r1 ≠ 0 then
    if EPERM = r1 then
      let r2 := initRes 1
      if r2 ≠ 0 then
        (false, [Event.condInit r1, Event.initXenomai, Event.condInit r2])
      else
        (false, [Event.condInit r1, Event.initXenomai, Event.condInit r2])
    else
      (false, [Event.condInit r1])
  else
    (true, [Event.condInit r1])

/-- Embeds `XenomaiConditionVariable::wait` (XenomaiLock.cpp lines
161-174): runs `try_or_retry` around
`__wrap_pthread_cond_wait(&cond, &lck.mutex()->mutex)` and discards the
result. -/
def XenomaiConditionVariable.wait (funcRes : Nat → Int)
    (schedRes : Bool → Int) (enabled : Bool) : List Event :=
  (try_or_retry NativeOp.condWait funcRes schedRes enabled).2

/-- Embeds `XenomaiConditionVariable::notify_one` (XenomaiLock.cpp lines
176-179): runs `try_or_retry` around `__wrap_pthread_cond_signal`. -/
def XenomaiConditionVariable.notify_one (funcRes : Nat → Int)
    (schedRes : Bool → Int) (enabled : Bool) : List Event :=
  (try_or_retry NativeOp.condSignal funcRes schedRes enabled).2

/-- Embeds `XenomaiConditionVariable::notify_all` (XenomaiLock.cpp lines
181-184): runs `try_or_retry` around `__wrap_pthread_cond_broadcast`. -/
def XenomaiConditionVariable.notify_all (funcRes : Nat → Int)
    (schedRes : Bool → Int) (enabled : Bool) : List Event :=
  (try_or_retry NativeOp.condBroadcast funcRes schedRes enabled).2

/-- Embeds the destructor
`XenomaiConditionVariable::~XenomaiConditionVariable()`
(XenomaiLock.cpp lines 154-159): if enabled, call `notify_all()` and then
`__wrap_pthread_cond_destroy`; otherwise do nothing. -/
def XenomaiConditionVariable.destroy (funcRes : Nat → Int)
    (schedRes : Bool → Int) (enabled : Bool) : List Event :=
  if enabled then
    XenomaiConditionVariable.notify_all funcRes schedRes enabled
      ++ [Event.condDestroy]
  else
    []

/-! ### Unfolding lemmas for `turn_into_cobalt_thread` -/

/-- Unfolding: the recurred call whose syscall fails returns -1 after a
second `initialize_xenomai`. -/
theorem turn_true_fail (s : Bool → Int) (h : s true ≠ 0) :
    turn_into_cobalt_thread s true
      = (-1, [Event.schedSet (s true), Event.initXenomai]) := by
  rw [turn_into_cobalt_thread]; simp [h]

/-- Unfolding: the recurred call whose syscall succeeds returns 0. -/
theorem turn_true_ok (s : Bool → Int) (h : s true = 0) :
    turn_into_cobalt_thread s true = (0, [Event.schedSet (s true)]) := by
  rw [turn_into_cobalt_thread]; simp [h]

/-- Unfolding: the top-level call whose syscall succeeds returns 0. -/
theorem turn_false_ok (s : Bool → Int) (h : s false = 0) :
    turn_into_cobalt_thread s false = (0, [Event.schedSet (s false)]) := by
  rw [turn_into_cobalt_thread]; simp [h]

/-- Unfolding: the top-level call whose syscall fails initializes Xenomai
and recurses once. -/
theorem turn_false_fail (s : Bool → Int) (h : s false ≠ 0) :
    turn_into_cobalt_thread s false
      = ((turn_into_cobalt_thread s true).1,
          Event.schedSet (s false) :: Event.initXenomai
            :: (turn_into_cobalt_thread s true).2) := by
  rw [turn_into_cobalt_thread]; simp [h]

/-- The Domain Promoter's trace never contains a wrapped-operation call. -/
theorem turn_count_call (s : Bool → Int) (b : Bool) :
    countEv Event.isCall (turn_into_cobalt_thread s b).2 = 0 := by
  cases b with
  | true =>
    by_cases h2 : s true = 0
    · simp [turn_true_ok _ h2, countEv, Event.isCall]
    · simp [turn_true_fail _ h2, countEv, Event.isCall]
  | false =>
    by_cases h1 : s false = 0
    · simp [turn_false_ok _ h1, countEv, Event.isCall]
    · by_cases h2 : s true = 0
      · simp [turn_false_fail _ h1, turn_true_ok _ h2, countEv, Event.isCall]
      · simp [turn_false_fail _ h1, turn_true_fail _ h2, countEv, Event.isCall]

/-- The Domain Promoter's trace never contains a promoter-entry event. -/
theorem turn_count_promote (s : Bool → Int) (b : Bool) :
    countEv Event.isPromote (turn_into_cobalt_thread s b).2 = 0 := by
  cases b with
  | true =>
    by_cases h2 : s true = 0
    · simp [turn_true_ok _ h2, countEv, Event.isPromote]
    · simp [turn_true_fail _ h2, countEv, Event.isPromote]
  | false =>
    by_cases h1 : s false = 0
    · simp [turn_false_ok _ h1, countEv, Event.isPromote]
    · by_cases h2 : s true = 0
      · simp [turn_false_fail _ h1, turn_true_ok _ h2, countEv, Event.isPromote]
      · simp [turn_false_fail _ h1, turn_true_fail _ h2, countEv, Event.isPromote]

/-! ### Claim theorems -/

/-- C1: the spec claims every operation run through the retry helper on a
disabled object returns a failure result, and in particular that
`try_lock()` on a disabled mutex returns false.  On the code the disabled
branch executes `return false;` from the `int`-returning `try_or_retry`,
which converts to the int 0 — the success value — so `try_lock()`
evaluates `0 == 0` and returns TRUE on a disabled mutex (the
"without invoking the wrapped native operation" part does hold: the trace
is empty).  This theorem evaluates the code at the failing input. -/
theorem C1_disabled_trylock_returns_true (funcRes : Nat → Int)
    (schedRes : Bool → Int) :
    try_or_retry NativeOp.trylock funcRes schedRes false = (0, [])
      ∧ XenomaiMutex.try_lock funcRes schedRes false = (true, []) :=
  ⟨rfl, rfl⟩

/-- C2: the spec claims that when the first native condition-variable init
returns the wrong-domain error and the retried init succeeds, `enabled`
is set to true.  On the code, after a successful retry control still hits
the outer block's `return;`, so the constructor leaves `enabled = false`.
This theorem evaluates the code at the failing input: first
`__wrap_pthread_cond_init` returns EPERM, the retried one returns 0, and
the constructed object is nevertheless disabled. -/
theorem C2_cv_retry_success_still_disabled :
    XenomaiConditionVariable.construct (fun n => if n = 0 then EPERM else 0)
      = (false, [Event.condInit EPERM, Event.initXenomai, Event.condInit 0]) :=
  rfl

/-- C3: the spec claims `enabled == true` iff the native mutex init
succeeded, and that a first-attempt failure with an error other than the
wrong-domain error leaves `enabled = false`.  The code only compares the
first result against EPERM, so any other failure (here 22, i.e. EINVAL)
falls through to `enabled = true`.  This theorem evaluates the code at the
failing input. -/
theorem C3_mutex_other_error_still_enabled :
    XenomaiMutex.construct (fun _ => 22) = (true, [Event.mutexInit 22]) :=
  rfl

/-- C4: the Domain Promoter returns 0 exactly when the scheduler-set
syscall succeeds on the first attempt or on the single retry performed
after triggering environment initialization, returns -1 when the retried
syscall also fails, and attempts the syscall at most twice per call. -/
theorem C4_promoter_result_and_attempt_bound (schedRes : Bool → Int) :
    (turn_into_cobalt_thread schedRes false).1
        = (if schedRes false = 0 then 0 else if schedRes true = 0 then 0 else -1)
      ∧ countEv Event.isSchedSet (turn_into_cobalt_thread schedRes false).2 ≤ 2 := by
  by_cases h1 : schedRes false = 0
  · simp [turn_false_ok _ h1, h1, countEv, Event.isSchedSet]
  · by_cases h2 : schedRes true = 0
    · simp [turn_false_fail _ h1, turn_true_ok _ h2, h1, h2, countEv,
        Event.isSchedSet]
    · simp [turn_false_fail _ h1, turn_true_fail _ h2, h1, h2, countEv,
        Event.isSchedSet]

/-- C9: in a Domain Promoter call in which both scheduler-set syscall
attempts fail, `initialize_xenomai` is triggered twice, once after each
failed attempt. -/
theorem C9_both_failures_init_twice (schedRes : Bool → Int)
    (h1 : schedRes false ≠ 0) (h2 : schedRes true ≠ 0) :
    countEv Event.isInitXenomai (turn_into_cobalt_thread schedRes false).2 = 2 := by
  simp [turn_false_fail _ h1, turn_true_fail _ h2, countEv, Event.isInitXenomai]

/-- Witness for C9 at the concrete environment in which both syscall
attempts return -5. -/
theorem C9_both_failures_init_twice_witness :
    ((fun _ => (-5 : Int)) false ≠ 0 ∧ (fun _ => (-5 : Int)) true ≠ 0)
      ∧ countEv Event.isInitXenomai
          (turn_into_cobalt_thread (fun _ => (-5 : Int)) false).2 = 2 :=
  ⟨⟨by decide, by decide⟩,
    C9_both_failures_init_twice (fun _ => (-5 : Int)) (by decide) (by decide)⟩

/-! ### Counting helpers -/

/-- Counting over an empty trace. -/
theorem countEv_nil (p : Event → Bool) : countEv p [] = 0 := rfl

/-- Counting over a cons. -/
theorem countEv_cons (p : Event → Bool) (e : Event) (l : List Event) :
    countEv p (e :: l) = (if p e then 1 else 0) + countEv p l := by
  simp only [countEv, List.filter_cons]
  split <;> simp [Nat.add_comm]

/-- Counting distributes over append. -/
theorem countEv_append (p : Event → Bool) (l1 l2 : List Event) :
    countEv p (l1 ++ l2) = countEv p l1 + countEv p l2 := by
  simp [countEv, List.filter_append]

/-- C5: a `try_or_retry` call on an enabled object invokes the wrapped
native operation at most twice and enters the Domain Promoter at most
once, for every wrapped operation and every environment. -/
theorem C5_retry_helper_bounds (op : NativeOp) (funcRes : Nat → Int)
    (schedRes : Bool → Int) :
    countEv Event.isCall (try_or_retry op funcRes schedRes true).2 ≤ 2
      ∧ countEv Event.isPromote (try_or_retry op funcRes schedRes true).2 ≤ 1 := by
  unfold try_or_retry
  by_cases h : funcRes 0 = EPERM
  · by_cases hp : (turn_into_cobalt_thread schedRes false).1 = 0
    · simp [h, hp, countEv_cons, countEv_append, countEv_nil,
        turn_count_call, turn_count_promote, Event.isCall, Event.isPromote]
    · simp [h, hp, countEv_cons, countEv_append, countEv_nil,
        turn_count_call, turn_count_promote, Event.isCall, Event.isPromote]
  · simp [h, countEv_cons, countEv_nil, Event.isCall, Event.isPromote]

/-- C6: when the first attempt of the wrapped operation returns anything
other than the wrong-domain error, `try_or_retry` on an enabled object
returns that result as-is with no promotion and no second attempt; in
particular `try_lock()` on a mutex whose trylock reports EBUSY (already
locked) returns false after exactly that one native call. -/
theorem C6_non_eperm_returned_as_is (op : NativeOp) (funcRes : Nat → Int)
    (schedRes : Bool → Int) (h : funcRes 0 ≠ EPERM) :
    try_or_retry op funcRes schedRes true
        = (funcRes 0, [Event.call op (funcRes 0)])
      ∧ XenomaiMutex.try_lock (fun _ => EBUSY) schedRes true
          = (false, [Event.call NativeOp.trylock EBUSY]) := by
  constructor
  · unfold try_or_retry
    simp [h]
  · rfl

/-- Witness for C6: an unlock whose native call returns EBUSY. -/
theorem C6_non_eperm_returned_as_is_witness :
    ((fun _ => EBUSY : Nat → Int) 0 ≠ EPERM)
      ∧ (try_or_retry NativeOp.unlock (fun _ => EBUSY) (fun _ => (0 : Int)) true
            = (EBUSY, [Event.call NativeOp.unlock EBUSY])
          ∧ XenomaiMutex.try_lock (fun _ => EBUSY) (fun _ => (0 : Int)) true
            = (false, [Event.call NativeOp.trylock EBUSY])) :=
  ⟨by decide,
    C6_non_eperm_returned_as_is NativeOp.unlock (fun _ => EBUSY)
      (fun _ => (0 : Int)) (by decide)⟩

/-- C7: when the first attempt returns the wrong-domain error and the
Domain Promoter call fails, `try_or_retry` returns EPERM and the wrapped
operation has been attempted exactly once (no second attempt). -/
theorem C7_promotion_failure_returns_eperm (op : NativeOp)
    (funcRes : Nat → Int) (schedRes : Bool → Int)
    (h1 : funcRes 0 = EPERM)
    (h2 : (turn_into_cobalt_thread schedRes false).1 ≠ 0) :
    (try_or_retry op funcRes schedRes true).1 = EPERM
      ∧ countEv Event.isCall (try_or_retry op funcRes schedRes true).2 = 1 := by
  unfold try_or_retry
  simp [h1, h2, countEv_cons, turn_count_call, Event.isCall]

/-- Witness for C7: a wait whose native call returns EPERM while both
promotion syscall attempts return -5. -/
theorem C7_promotion_failure_returns_eperm_witness :
    ((fun _ => EPERM : Nat → Int) 0 = EPERM
        ∧ (turn_into_cobalt_thread (fun _ => (-5 : Int)) false).1 ≠ 0)
      ∧ ((try_or_retry NativeOp.condWait (fun _ => EPERM) (fun _ => (-5 : Int)) true).1
            = EPERM
          ∧ countEv Event.isCall
              (try_or_retry NativeOp.condWait (fun _ => EPERM)
                (fun _ => (-5 : Int)) true).2 = 1) :=
  ⟨⟨rfl, by simp [turn_false_fail (fun _ => (-5 : Int)) (by decide),
        turn_true_fail (fun _ => (-5 : Int)) (by decide)]⟩,
    C7_promotion_failure_returns_eperm NativeOp.condWait (fun _ => EPERM)
      (fun _ => (-5 : Int)) rfl
      (by simp [turn_false_fail (fun _ => (-5 : Int)) (by decide),
        turn_true_fail (fun _ => (-5 : Int)) (by decide)])⟩

/-- On an enabled object, `try_or_retry` performs at least one invocation
of its wrapped operation. -/
theorem try_or_retry_at_least_one_call (op : NativeOp) (funcRes : Nat → Int)
    (schedRes : Bool → Int) :
    1 ≤ countEv (Event.isCallOf op) (try_or_retry op funcRes schedRes true).2 := by
  unfold try_or_retry
  by_cases h : funcRes 0 = EPERM
  · by_cases hp : (turn_into_cobalt_thread schedRes false).1 = 0
    · simp [h, hp, countEv_cons, Event.isCallOf]
    · simp [h, hp, countEv_cons, Event.isCallOf]
  · simp [h, countEv_cons, countEv_nil, Event.isCallOf]

/-- C8: destroying an enabled Condition Variable emits exactly the events
of `notify_all()` (which include at least one native broadcast call)
followed by the release of the native condition handle; destroying a
disabled one emits nothing at all. -/
theorem C8_cv_destroy_broadcast_then_release (funcRes : Nat → Int)
    (schedRes : Bool → Int) :
    XenomaiConditionVariable.destroy funcRes schedRes true
        = XenomaiConditionVariable.notify_all funcRes schedRes true
            ++ [Event.condDestroy]
      ∧ 1 ≤ countEv (Event.isCallOf NativeOp.condBroadcast)
            (XenomaiConditionVariable.notify_all funcRes schedRes true)
      ∧ XenomaiConditionVariable.destroy funcRes schedRes false = [] := by
  refine ⟨rfl, ?_, rfl⟩
  exact try_or_retry_at_least_one_call NativeOp.condBroadcast funcRes schedRes

/-- C10: `wait` on a disabled Condition Variable performs no native call
at all — in particular no native condition-wait and nothing touching the
supplied mutex's native handle — so the caller still holds the mutex on
return. -/
theorem C10_wait_disabled_touches_nothing (funcRes : Nat → Int)
    (schedRes : Bool → Int) :
    XenomaiConditionVariable.wait funcRes schedRes false = []
      ∧ countEv (Event.isCallOf NativeOp.condWait)
          (XenomaiConditionVariable.wait funcRes schedRes false) = 0
      ∧ countEv Event.touchesMutex
          (XenomaiConditionVariable.wait funcRes schedRes false) = 0 :=
  ⟨rfl, rfl, rfl⟩
